import Mathlib

/-!
Verification of the agentic research-assistant pipeline.

Shallow embedding of the Python sources:
  - `rag.py` (text chunking, vector store construction, retrieval),
  - `evaluation/evaluate.py` (coverage, coherence, grounding metrics and
    the overall aggregation of `run_evaluation`),
  - `nodes.py` (the `analyst_node` pipeline stage).

Python strings are modelled as `List Char`, Python ints as `Int`, Python
floats appearing here (metric scores) as `ℚ` with decimal rounding made
explicit, and Python exceptions as `Except` values.  External services
(the LLM, the embedding provider, the ChromaDB nearest-neighbour search)
are parameters of the definitions that use them.
-/

/-- Normalise a Python slice index against a string of length `len`:
a negative index counts from the end, and the result is clamped to
`[0, len]`.  This is the semantics of `text[a:b]` index handling. -/
def pyNormIdx (len : Nat) (i : Int) : Nat :=
  if i < 0 then ((len : Int) + i).toNat else min i.toNat len

/-- Python slice `s[a:b]` on a string modelled as `List Char`. -/
def pySlice (s : List Char) (a b : Int) : List Char :=
  (s.take (pyNormIdx s.length b)).drop (pyNormIdx s.length a)

/-- Python `round(x, 2)` on the rational values produced by the metric
code.  Modelled as rounding `x * 100` to the nearest integer (half up,
which agrees with Python's float rounding at the concrete values the
metrics produce in this development). -/
def round2 (q : ℚ) : ℚ := (⌊q * 100 + 1 / 2⌋ : ℚ) / 100

/-- Constant `CHUNK_SIZE = 4000` from `config.py`. -/
def CHUNK_SIZE : Int := 4000

/-- Constant `CHUNK_OVERLAP = 200` from `config.py`. -/
def CHUNK_OVERLAP : Int := 200

/-- The loop of `chunk_text` in `rag.py`, fuel-indexed because the
Python loop need not terminate for every configuration:

    while start < len(text):
        end = start + chunk_size
        chunks.append(text[start:end])
        start = end - overlap

`none` means the fuel ran out before the loop finished; the wrapper
`chunk_text` supplies enough fuel for every terminating configuration,
and a configuration on which every fuel returns `none` is a
non-terminating one. -/
def chunkTextGo (text : List Char) (chunk_size overlap : Int) :
    Nat → Int → Option (List (List Char))
  | 0, _ => none
  | fuel + 1, start =>
    if start < (text.length : Int) then
      match chunkTextGo text chunk_size overlap fuel (start + chunk_size - overlap) with
      | none => none
      | some rest => some (pySlice text start (start + chunk_size) :: rest)
    else
      some []

/-- Function `chunk_text(text, chunk_size, overlap)` of `rag.py`: run the loop from
`start = 0`.  Fuel `text.length + 1` covers every iteration whenever the
step `chunk_size - overlap` is at least `1`. -/
def chunk_text (text : List Char) (chunk_size overlap : Int) :
    Option (List (List Char)) :=
  chunkTextGo text chunk_size overlap (text.length + 1) 0

/-- Python `str.lower()` restricted to ASCII, which covers every string
the evaluation code compares (the required section titles are ASCII). -/
def pyLower (c : Char) : Char :=
  if 65 ≤ c.toNat ∧ c.toNat ≤ 90 then Char.ofNat (c.toNat + 32) else c

/-- Lower-case an entire string. -/
def lowerStr (s : List Char) : List Char := s.map pyLower

/-- Python's `needle in hay` substring test on strings. -/
def isSubstring (needle : List Char) : List Char → Bool
  | [] => needle.isEmpty
  | c :: rest => needle.isPrefixOf (c :: rest) || isSubstring needle rest

/-- Truthiness of Python `s.strip()`: `True` exactly when `s` has a
non-whitespace character. -/
def hasNonWs (s : List Char) : Bool := s.any (fun c => !c.isWhitespace)

/-! ## JSON values and Python exceptions

`json.loads` output is modelled as an already-parsed `Json` tree; a
response that does not parse is represented by `none` upstream.  The
exceptions that the evaluation code can actually raise are listed next
to `judgeFormatError`, which is modelled from the spec: the spec's error
taxonomy names a `JudgeFormatError`, but no such class exists anywhere
in the source, so the constructor exists only to state claims that
mention it. -/

inductive Json where
  | null : Json
  | bool (b : Bool) : Json
  | num (q : ℚ) : Json
  | str (s : String) : Json
  | arr (xs : List Json) : Json
  | obj (kvs : List (String × Json)) : Json

/-- Python exceptions relevant to the evaluation code, plus the
spec-only `judgeFormatError` (see the section comment above). -/
inductive PyErr where
  | jsonDecodeError : PyErr
  | keyError (k : String) : PyErr
  | typeError : PyErr
  | judgeFormatError : PyErr
deriving DecidableEq

/-- Dictionary lookup `d[k]` / `d.get(k)` on a parsed JSON object
(keys are distinct after `json.loads`). -/
def jsonLookup (kvs : List (String × Json)) (k : String) : Option Json :=
  (kvs.find? (fun p => p.1 == k)).map Prod.snd

/-- The numeric reading Python applies to a JSON value in an arithmetic
position (`result["score"] / 5`): numbers are used as-is, booleans count
as `0`/`1` (Python `bool` is an `int`), anything else is a `TypeError`. -/
def jsonNum : Json → Option ℚ
  | Json.num q => some q
  | Json.bool b => some (if b then 1 else 0)
  | _ => none

/-! ## `evaluation/evaluate.py` -/

/-- Constant `REQUIRED_SECTIONS` from `evaluation/evaluate.py`. -/
def REQUIRED_SECTIONS : List (List Char) :=
  ["Paper Overview".toList, "Problem Statement".toList, "Methodology".toList,
   "Key Findings".toList, "Limitations & Future Work".toList, "Key Takeaways".toList]

/-- The membership test of the coverage loop:
`section.lower() in summary.lower()`. -/
def sectionFound (summary sec : List Char) : Bool :=
  isSubstring (lowerStr sec) (lowerStr summary)

/-- The dictionary returned by `evaluate_coverage` (minus the constant
`"metric"` tag). -/
structure CoverageResult where
  score : ℚ
  found_sections : List (List Char)
  missing_sections : List (List Char)

/-- Function `evaluate_coverage(summary)`: the loop appends each required section
to `found` or `missing` in order, which is exactly a `filter`; the score
is `round(len(found) / len(REQUIRED_SECTIONS), 2)`. -/
def evaluate_coverage (summary : List Char) : CoverageResult :=
  let found := REQUIRED_SECTIONS.filter (fun sec => sectionFound summary sec)
  let missing := REQUIRED_SECTIONS.filter (fun sec => !sectionFound summary sec)
  { score := round2 ((found.length : ℚ) / (REQUIRED_SECTIONS.length : ℚ)),
    found_sections := found,
    missing_sections := missing }

/-- The dictionary returned by `evaluate_coherence` (minus the constant
`"metric"` tag); `reasoning` keeps whatever JSON value the judge sent. -/
structure CoherenceResult where
  score : ℚ
  raw_score : ℚ
  reasoning : Json

/-- Function `evaluate_coherence` after the judge call: `json.loads` the response
(`none` = malformed, raising `json.JSONDecodeError`), then build
`round(result["score"] / 5, 2)` and `result["reasoning"]`, with the
exceptions Python raises at each step.  No `JudgeFormatError` is raised
anywhere: the name does not occur in the source. -/
def evaluate_coherence (parsed : Option Json) : Except PyErr CoherenceResult :=
  match parsed with
  | none => Except.error PyErr.jsonDecodeError
  | some (Json.obj kvs) =>
    match jsonLookup kvs "score" with
    | none => Except.error (PyErr.keyError "score")
    | some v =>
      match jsonNum v with
      | none => Except.error PyErr.typeError
      | some raw =>
        match jsonLookup kvs "reasoning" with
        | none => Except.error (PyErr.keyError "reasoning")
        | some reasoning =>
          Except.ok { score := round2 (raw / 5), raw_score := raw, reasoning := reasoning }
  | some _ => Except.error PyErr.typeError

/-- The dictionary returned by `evaluate_grounding` (minus the constant
`"metric"` tag); the three `.get` fields keep their raw JSON values. -/
structure GroundingResult where
  score : ℚ
  supported_claims : Json
  unsupported_claims : Json
  flagged : Json

/-- Function `evaluate_grounding` after the judge call: `result["score"]` is a
hard lookup (`KeyError` when absent), while `supported_claims`,
`unsupported_claims` and `flagged` use `result.get(..., default)` with
defaults `0`, `0` and `[]`. -/
def evaluate_grounding (parsed : Option Json) : Except PyErr GroundingResult :=
  match parsed with
  | none => Except.error PyErr.jsonDecodeError
  | some (Json.obj kvs) =>
    match jsonLookup kvs "score" with
    | none => Except.error (PyErr.keyError "score")
    | some v =>
      match jsonNum v with
      | none => Except.error PyErr.typeError
      | some raw =>
        Except.ok
          { score := round2 (raw / 5),
            supported_claims := (jsonLookup kvs "supported_claims").getD (Json.num 0),
            unsupported_claims := (jsonLookup kvs "unsupported_claims").getD (Json.num 0),
            flagged := (jsonLookup kvs "flagged").getD (Json.arr []) }
  | some _ => Except.error PyErr.typeError

/-- In `run_evaluation`, `grounding` is computed only when
`source_text.strip()` is truthy; otherwise its score is `None`. -/
def groundingScoreOf (source_text : List Char) (gnd : ℚ) : Option ℚ :=
  if hasNonWs source_text then some gnd else none

/-- In `run_evaluation`:
`scores = [r["score"] for r in [coverage, coherence, grounding] if r["score"] is not None]`. -/
def run_evaluation_scores (cov coh : ℚ) (gnd : Option ℚ) : List ℚ :=
  ([some cov, some coh, gnd]).filterMap id

/-- In `run_evaluation`: `overall = sum(scores) / len(scores) if scores else 0`. -/
def run_evaluation_mean (scores : List ℚ) : ℚ :=
  if scores.isEmpty then 0 else scores.sum / (scores.length : ℚ)

/-- The `"overall_score"` field written by `run_evaluation`:
`round(overall, 2)` where `overall` is the mean of the available metric
scores and grounding is skipped on empty source text. -/
def run_evaluation_overall (cov coh : ℚ) (source_text : List Char) (gnd : ℚ) : ℚ :=
  round2 (run_evaluation_mean (run_evaluation_scores cov coh (groundingScoreOf source_text gnd)))

/-! ## `rag.py`: vector store and retrieval

The embedding provider and ChromaDB's cosine nearest-neighbour ranking
are external services; they enter as parameters (`embed`, `sim`).  Each
definition also returns the number of embedding-provider calls it
issued. -/

/-- The chunks `build_vector_store` derives from one paper with the
`config.py` defaults.  `chunk_text` is total here (`getD []` is never
hit): with `CHUNK_SIZE = 4000` and `CHUNK_OVERLAP = 200` the fuel of
`chunk_text` always suffices. -/
def chunksOf (text : List Char) : List (List Char) :=
  (chunk_text text CHUNK_SIZE CHUNK_OVERLAP).getD []

/-- An in-memory ChromaDB collection as `build_vector_store` fills it:
parallel lists of documents, embeddings, ids and metadata. -/
structure Collection where
  documents : List (List Char)
  embeddings : List (List ℚ)
  ids : List String
  metadatas : List (String × Nat)

/-- Function `build_vector_store(paper_texts)`: chunk every paper, and unless the
chunk list is empty (in which case the empty collection is returned with
no embedding call), embed all chunks in one batch call and add them with
ids `f"{filename}_chunk_{i}"` and source metadata.  The second component
counts embedding-provider calls. -/
def build_vector_store (embed : List (List Char) → List (List ℚ))
    (paper_texts : List (String × List Char)) : Collection × Nat :=
  let all_chunks := paper_texts.flatMap (fun p => chunksOf p.2)
  let all_ids := paper_texts.flatMap
    (fun p => (List.range (chunksOf p.2).length).map
      (fun i => p.1 ++ "_chunk_" ++ toString i))
  let all_metadatas := paper_texts.flatMap
    (fun p => (List.range (chunksOf p.2).length).map (fun i => (p.1, i)))
  if all_chunks.isEmpty then
    ({ documents := [], embeddings := [], ids := [], metadatas := [] }, 0)
  else
    ({ documents := all_chunks, embeddings := embed all_chunks,
       ids := all_ids, metadatas := all_metadatas }, 1)

/-- Insertion into a list sorted by the Boolean relation `le`. -/
def insertBy (le : α → α → Bool) (a : α) : List α → List α
  | [] => [a]
  | b :: rest => if le a b then a :: b :: rest else b :: insertBy le a rest

/-- Insertion sort by the Boolean relation `le`; stands in for ChromaDB's
ranking of stored documents. -/
def sortBy (le : α → α → Bool) : List α → List α
  | [] => []
  | a :: rest => insertBy le a (sortBy le rest)

/-- ChromaDB `collection.query(...)["documents"]` for a single query
embedding: the stored documents ranked by similarity to the question
(highest first), truncated to `n_results` — one inner list per query.
On an empty collection this is `[[]]`, not an error. -/
def chromaQueryDocs (sim : List Char → ℚ) (c : Collection) (n_results : Nat) :
    List (List (List Char)) :=
  [(sortBy (fun a b => decide (sim b ≤ sim a)) c.documents).take n_results]

/-- Function `retrieve(collection, question, top_k)`: embed the question (one
embedding call, counted in the second component), query ChromaDB, and
return `results["documents"][0] if results["documents"] else []`. -/
def retrieve (sim : List Char → List Char → ℚ) (c : Collection)
    (question : List Char) (top_k : Nat) : List (List Char) × Nat :=
  let documents := chromaQueryDocs (sim question) c top_k
  (if documents.isEmpty then [] else documents.headD [], 1)

/-! ## `nodes.py`: the analyst stage -/

/-- The system message of `analyst_node`. -/
def analystSystemContent : List Char :=
  ("You are a senior research analyst with deep experience reviewing academic " ++
   "work across AI, ML, and computer science. You excel at critically evaluating " ++
   "methodology, spotting novel contributions, and identifying gaps or limitations.").toList

/-- The user message of `analyst_node`: a fixed instruction block with
`state['extraction']` interpolated at the end. -/
def analystUserContent (extraction : List Char) : List Char :=
  ("Using the following extracted paper information, perform a critical analysis:\n" ++
   "1. Evaluate the methodology rigor of each paper\n" ++
   "2. Identify the key novel contributions\n" ++
   "3. Assess strengths and limitations\n" ++
   "4. Note any gaps in the research\n" ++
   "5. If multiple papers are provided, identify common themes, contradictions, " ++
   "or complementary findings across them.\n\n").toList ++ extraction

/-- The pipeline state dict of `state.py`; `none` models an absent key
(`state[k]` on an absent key is a `KeyError`). -/
structure PState where
  paper_texts : Option (List (String × List Char))
  extraction : Option (List Char)
  analysis : Option (List Char)
  summary : Option (List Char)

/-- The update dict returned by `analyst_node`. -/
structure AnalystUpdate where
  analysis : List Char

/-- Function `analyst_node(state)`: read `state['extraction']` (a `KeyError` only
if the key is absent — there is no emptiness or ordering check), send
the fixed prompts with the extraction interpolated to the LLM, and
return the `analysis` update.  The LLM is the parameter `llm`, taking
the system and user message contents. -/
def analyst_node (llm : List Char → List Char → List Char) (state : PState) :
    Except PyErr AnalystUpdate :=
  match state.extraction with
  | none => Except.error (PyErr.keyError "extraction")
  | some e => Except.ok { analysis := llm analystSystemContent (analystUserContent e) }

/-! ## Helper lemmas about the chunking loop -/

/-- One run of the `chunk_text` loop body list: with a positive step and
enough fuel, the loop from cursor `start` terminates, produces
`⌈(len - start) / step⌉` chunks (written `(len - start - 1) / step + 1`
for `start < len`), and chunk `k` is the slice
`[start + k * step, start + k * step + chunk_size)`. -/
theorem chunkTextGo_spec (text : List Char) (chunk_size overlap : Int)
    (hstep : 0 < chunk_size - overlap) (fuel : Nat) :
    ∀ start : Nat, text.length ≤ start + fuel * (chunk_size - overlap).toNat →
    ∃ r, chunkTextGo text chunk_size overlap (fuel + 1) (start : Int) = some r ∧
      r.length = (if text.length ≤ start then 0
        else (text.length - start - 1) / (chunk_size - overlap).toNat + 1) ∧
      r = (List.range r.length).map (fun (k : Nat) =>
        pySlice text ((start : Int) + (k : Int) * (chunk_size - overlap))
          ((start : Int) + (k : Int) * (chunk_size - overlap) + chunk_size)) := by
  induction fuel with
  | zero =>
    intro start hle
    rw [Nat.zero_mul, Nat.add_zero] at hle
    have h0 : ¬ ((start : Int) < (text.length : Int)) := by omega
    exact ⟨[], by simp [chunkTextGo, h0], by simp [hle], by simp⟩
  | succ fuel ih =>
    intro start hle
    by_cases hst : text.length ≤ start
    · have h0 : ¬ ((start : Int) < (text.length : Int)) := by omega
      exact ⟨[], by simp [chunkTextGo, h0], by simp [hst], by simp⟩
    · push_neg at hst
      have hlt : (start : Int) < (text.length : Int) := by omega
      have hs1 : 0 < (chunk_size - overlap).toNat := by omega
      have hcast : (((chunk_size - overlap).toNat : Nat) : Int) = chunk_size - overlap := by
        omega
      have harg : (start : Int) + chunk_size - overlap =
          ((start + (chunk_size - overlap).toNat : Nat) : Int) := by push_cast; omega
      have hmul : (fuel + 1) * (chunk_size - overlap).toNat =
          fuel * (chunk_size - overlap).toNat + (chunk_size - overlap).toNat :=
        Nat.succ_mul _ _
      obtain ⟨r', hr', hlen', hspan'⟩ :=
        ih (start + (chunk_size - overlap).toNat) (by omega)
      refine ⟨pySlice text (start : Int) ((start : Int) + chunk_size) :: r', ?_, ?_, ?_⟩
      · have hgo : chunkTextGo text chunk_size overlap (fuel + 1 + 1) (start : Int) =
            match chunkTextGo text chunk_size overlap (fuel + 1)
                ((start : Int) + chunk_size - overlap) with
            | none => none
            | some rest =>
              some (pySlice text (start : Int) ((start : Int) + chunk_size) :: rest) := by
          conv_lhs => rw [chunkTextGo]
          rw [if_pos hlt]
        rw [hgo, harg, hr']
      · rw [if_neg (by omega)]
        by_cases hst2 : text.length ≤ start + (chunk_size - overlap).toNat
        · rw [if_pos hst2] at hlen'
          have hz : (text.length - start - 1) / (chunk_size - overlap).toNat = 0 :=
            Nat.div_eq_of_lt (by omega)
          simp [hlen', hz]
        · rw [if_neg hst2] at hlen'
          have h2 : text.length - (start + (chunk_size - overlap).toNat) - 1 +
              (chunk_size - overlap).toNat = text.length - start - 1 := by omega
          have key : (text.length - start - 1) / (chunk_size - overlap).toNat =
              (text.length - (start + (chunk_size - overlap).toNat) - 1) /
                (chunk_size - overlap).toNat + 1 := by
            rw [← h2, Nat.add_div_right _ hs1]
          simp [hlen', key]
      · rw [List.length_cons, List.range_succ_eq_map, List.map_cons, List.map_map]
        congr 1
        · simp
        · have hmaps : (List.range r'.length).map
              ((fun (k : Nat) => pySlice text
                ((start : Int) + (k : Int) * (chunk_size - overlap))
                ((start : Int) + (k : Int) * (chunk_size - overlap) + chunk_size)) ∘
                  Nat.succ) =
              (List.range r'.length).map (fun (k : Nat) =>
                pySlice text
                  (((start + (chunk_size - overlap).toNat : Nat) : Int) +
                    (k : Int) * (chunk_size - overlap))
                  (((start + (chunk_size - overlap).toNat : Nat) : Int) +
                    (k : Int) * (chunk_size - overlap) + chunk_size)) := by
            refine List.map_congr_left (fun k _ => ?_)
            simp only [Function.comp, Nat.succ_eq_add_one]
            have ha : (start : Int) + ((k + 1 : Nat) : Int) * (chunk_size - overlap) =
                ((start + (chunk_size - overlap).toNat : Nat) : Int) +
                  (k : Int) * (chunk_size - overlap) := by
              push_cast
              rw [hcast]
              ring
            rw [ha]
          rw [hmaps]
          exact hspan'

/-- Behaviour of `chunk_text` under a positive step: it terminates,
yields `⌈len / step⌉` chunks, and chunk `k` spans
`[k * step, k * step + chunk_size)`. -/
theorem chunk_text_spec (text : List Char) (chunk_size overlap : Int)
    (hstep : 0 < chunk_size - overlap) :
    ∃ r, chunk_text text chunk_size overlap = some r ∧
      r.length = (if text.length = 0 then 0
        else (text.length - 1) / (chunk_size - overlap).toNat + 1) ∧
      r = (List.range r.length).map (fun (k : Nat) =>
        pySlice text ((k : Int) * (chunk_size - overlap))
          ((k : Int) * (chunk_size - overlap) + chunk_size)) := by
  have hs1 : 0 < (chunk_size - overlap).toNat := by omega
  have hfuel : text.length ≤ 0 + text.length * (chunk_size - overlap).toNat := by
    have := Nat.mul_le_mul_left text.length hs1
    simpa using this
  obtain ⟨r, hr, hlen, hspan⟩ :=
    chunkTextGo_spec text chunk_size overlap hstep text.length 0 hfuel
  refine ⟨r, ?_, ?_, ?_⟩
  · simpa [chunk_text] using hr
  · rw [hlen]
    by_cases h0 : text.length = 0 <;> simp [h0]
  · rw [hspan]
    simp only [List.length_map, List.length_range]
    refine List.map_congr_left (fun k _ => ?_)
    simp

/-- With a non-positive step (`overlap >= chunk_size`) and non-empty
text, the loop never finishes: every fuel bound is exhausted. -/
theorem chunkTextGo_none (text : List Char) (chunk_size overlap : Int)
    (hstep : chunk_size - overlap ≤ 0) (hne : text ≠ []) :
    ∀ fuel : Nat, ∀ start : Int, start ≤ 0 →
      chunkTextGo text chunk_size overlap fuel start = none := by
  intro fuel
  induction fuel with
  | zero => intro start _; rfl
  | succ fuel ih =>
    intro start hstart
    have hpos : 0 < text.length := List.length_pos.mpr hne
    have hlt : start < (text.length : Int) := by omega
    simp only [chunkTextGo, if_pos hlt]
    rw [ih (start + chunk_size - overlap) (by omega)]

/-- Slicing the whole string: `text[0:b]` with `b >= len` is `text`. -/
theorem pySlice_all (s : List Char) (b : Int) (hb : (s.length : Int) ≤ b) :
    pySlice s 0 b = s := by
  have hb0 : ¬ b < 0 := by omega
  have hbn : s.length ≤ b.toNat := by omega
  simp [pySlice, pyNormIdx, hb0, Nat.min_eq_right hbn, List.take_of_length_le]

/-- Length of a filter and of its complementary filter add up to the
length of the list. -/
theorem filter_length_split {α : Type} (p : α → Bool) (l : List α) :
    (l.filter p).length + (l.filter (fun a => !p a)).length = l.length := by
  induction l with
  | nil => rfl
  | cons a l ih =>
    by_cases h : p a <;> simp [List.filter_cons, h] <;> omega

/-- The coverage score is the rounded fraction of found sections. -/
theorem evaluate_coverage_score_eq (summary : List Char) :
    (evaluate_coverage summary).score =
      round2 (((evaluate_coverage summary).found_sections.length : ℚ) / 6) := by
  simp [evaluate_coverage, REQUIRED_SECTIONS]

/-! ## Claims -/

/-- C1, counterexample to the claim as stated: `"abcdefghij"` (length
10) with `chunk_size = 10`, `overlap = 3` is a valid configuration with
`len(T) <= size`, yet `chunk_text` returns two chunks (the second one,
`"hij"`, lies inside the first chunk's overlap), not one chunk equal to
`T`; likewise the claimed count `ceil((10 - 3) / (10 - 3)) = 1` is not
the produced count `2`. -/
theorem chunk_text_single_chunk_cex :
    chunk_text "abcdefghij".toList 10 3 =
      some ["abcdefghij".toList, "hij".toList] ∧
    (["abcdefghij".toList, "hij".toList] : List (List Char)).length ≠ 1 :=
  ⟨by decide, by decide⟩

/-- C1 (amended): for non-empty `T` and `0 <= overlap < size`,
`chunk_text` produces exactly `ceil(len(T) / (size - overlap))` chunks
(written `(len - 1) / step + 1` below), and it returns exactly one chunk
equal to the whole text precisely when `len(T) <= size - overlap`. -/
theorem chunk_text_count (text : List Char) (chunk_size overlap : Int)
    (hov : 0 ≤ overlap) (hlt : overlap < chunk_size) (hne : text ≠ []) :
    ∃ r, chunk_text text chunk_size overlap = some r ∧
      r.length = (text.length - 1) / (chunk_size - overlap).toNat + 1 ∧
      (text.length ≤ (chunk_size - overlap).toNat → r = [text]) := by
  obtain ⟨r, hr, hlen, hspan⟩ := chunk_text_spec text chunk_size overlap (by omega)
  have hL : text.length ≠ 0 := by simpa using hne
  have hlen1 : r.length = (text.length - 1) / (chunk_size - overlap).toNat + 1 := by
    rw [hlen, if_neg hL]
  refine ⟨r, hr, hlen1, ?_⟩
  intro hle
  have h1 : r.length = 1 := by
    rw [hlen1, Nat.div_eq_of_lt (by omega)]
  have hfull : pySlice text 0 chunk_size = text :=
    pySlice_all text chunk_size (by omega)
  rw [h1] at hspan
  rw [hspan]
  simp [List.range_succ, hfull]

/-- C1 witness: `"hello"` with `chunk_size = 10`, `overlap = 3` gives
the single chunk `"hello"`. -/
theorem chunk_text_count_witness :
    chunk_text "hello".toList 10 3 = some ["hello".toList] := by
  obtain ⟨r, hr, hlen, hone⟩ :=
    chunk_text_count "hello".toList 10 3 (by norm_num) (by norm_num) (by decide)
  rw [hr, hone (by decide)]

/-- C2, counterexample to the claim as stated: the invalid configuration
`overlap = -1 < 0` raises nothing — `chunk_text("abc", 2, -1)` returns
the chunk sequence `["ab"]`, which moreover fails to cover the text (the
character `c` is lost).  No `ConfigError` exists in the source. -/
theorem chunk_text_no_validation_cex :
    chunk_text "abc".toList 2 (-1) = some [['a', 'b']] ∧
    ([['a', 'b']] : List (List Char)).flatten ≠ "abc".toList :=
  ⟨by decide, by decide⟩

/-- C2 (amended): `chunk_text` performs no configuration validation and
never raises `ConfigError` (no such error exists in the source).  With
`overlap >= size` on non-empty text the loop never terminates — the
fuel-indexed loop returns `none` for every fuel bound — while with
`overlap < 0` it returns normally a possibly text-skipping sequence (see
the counterexample). -/
theorem chunk_text_invalid_config (text : List Char) (chunk_size overlap : Int)
    (hso : chunk_size ≤ overlap) (hne : text ≠ []) :
    (∀ fuel, chunkTextGo text chunk_size overlap fuel 0 = none) ∧
    chunk_text text chunk_size overlap = none := by
  have h := chunkTextGo_none text chunk_size overlap (by omega) hne
  exact ⟨fun fuel => h fuel 0 le_rfl, h _ 0 le_rfl⟩

/-- C2 witness: `chunk_text("a", 1, 1)` runs forever (here: returns
`none` at the wrapper's fuel, and at fuel 5). -/
theorem chunk_text_invalid_config_witness :
    chunkTextGo "a".toList 1 1 5 0 = none ∧ chunk_text "a".toList 1 1 = none := by
  have h := chunk_text_invalid_config "a".toList 1 1 le_rfl (by decide)
  exact ⟨h.1 5, h.2⟩

/-- C8: under `0 <= overlap < size` the loop of `chunk_text` terminates
on every text, chunk `k` being the slice starting at cursor `k * step`
(cursor starts at `0` and advances by `step = size - overlap` each
iteration), and the empty text yields the empty chunk sequence. -/
theorem chunk_text_terminates (text : List Char) (chunk_size overlap : Int)
    (hov : 0 ≤ overlap) (hlt : overlap < chunk_size) :
    (∃ r, chunk_text text chunk_size overlap = some r ∧
      r = (List.range r.length).map (fun (k : Nat) =>
        pySlice text ((k : Int) * (chunk_size - overlap))
          ((k : Int) * (chunk_size - overlap) + chunk_size))) ∧
    chunk_text [] chunk_size overlap = some [] := by
  refine ⟨?_, rfl⟩
  obtain ⟨r, hr, _, hspan⟩ := chunk_text_spec text chunk_size overlap (by omega)
  exact ⟨r, hr, hspan⟩

/-- C8 witness: `chunk_text("abcd", 3, 1)` terminates (with chunks
`["abc", "cd"]`), and the empty text yields `[]`. -/
theorem chunk_text_terminates_witness :
    chunk_text [] 3 1 = some [] ∧
    (chunk_text "abcd".toList 3 1).isSome = true := by
  have h := chunk_text_terminates "abcd".toList 3 1 (by norm_num) (by norm_num)
  refine ⟨h.2, ?_⟩
  obtain ⟨r, hr, _⟩ := h.1
  rw [hr]
  rfl

/-- C3, counterexample to the claim as stated: on the initial pipeline
state, whose `extraction` is the empty string (exactly the situation
before the Reading stage has produced anything), `analyst_node` does not
fail — it silently sends the empty extraction to the LLM and returns an
analysis update. -/
theorem analyst_node_empty_extraction_cex :
    analyst_node (fun _ u => u) ⟨some [], some [], some [], some []⟩ =
      Except.ok { analysis := analystUserContent [] } :=
  rfl

/-- C3 (amended): `analyst_node` performs no precondition or emptiness
check: whenever the state carries an `extraction` value — even the empty
string — it succeeds and returns the LLM's answer on the prompt with
that extraction interpolated; only a state whose `extraction` key is
absent fails, with a `KeyError`, not a domain precondition error. -/
theorem analyst_node_behavior :
    (∀ (llm : List Char → List Char → List Char) (state : PState) (e : List Char),
      state.extraction = some e →
      analyst_node llm state =
        Except.ok { analysis := llm analystSystemContent (analystUserContent e) }) ∧
    (∀ (llm : List Char → List Char → List Char) (state : PState),
      state.extraction = none →
      analyst_node llm state = Except.error (PyErr.keyError "extraction")) := by
  constructor
  · intro llm state e he
    simp [analyst_node, he]
  · intro llm state he
    simp [analyst_node, he]

/-- C3 witness: a state with `extraction = "x"` makes `analyst_node`
succeed with the interpolated prompt. -/
theorem analyst_node_behavior_witness :
    analyst_node (fun _ u => u) ⟨none, some ['x'], none, none⟩ =
      Except.ok { analysis := analystUserContent ['x'] } :=
  analyst_node_behavior.1 (fun _ u => u) ⟨none, some ['x'], none, none⟩ ['x'] rfl

/-- C4, counterexample to the claim as stated: a summary containing
exactly one required header scores `round(1/6, 2) = 0.17`, not the exact
fraction `1/6` — the returned score is rounded to two decimals. -/
theorem evaluate_coverage_rounded_score_cex :
    (evaluate_coverage "Methodology".toList).found_sections.length = 1 ∧
    (evaluate_coverage "Methodology".toList).score = 17 / 100 ∧
    (17 : ℚ) / 100 ≠ 1 / 6 := by
  refine ⟨by decide, ?_, by norm_num⟩
  rw [evaluate_coverage_score_eq,
    show (evaluate_coverage "Methodology".toList).found_sections.length = 1 from by decide]
  norm_num [round2]

/-- C4 (amended): a required header counts as found exactly when it is a
case-insensitive substring of the summary, and the returned score is
`round(found_count / 6, 2)`; a summary containing all six headers (any
casing) scores exactly `1.0`, and one containing exactly three of the
six scores exactly `0.5`. -/
theorem evaluate_coverage_substring_score :
    (∀ (summary sec : List Char), sec ∈ REQUIRED_SECTIONS →
      (sec ∈ (evaluate_coverage summary).found_sections ↔
        sectionFound summary sec = true)) ∧
    (∀ summary : List Char, (evaluate_coverage summary).score =
      round2 (((evaluate_coverage summary).found_sections.length : ℚ) / 6)) ∧
    (evaluate_coverage ("paper overview problem statement methodology " ++
      "key findings limitations & future work key takeaways").toList).score = 1 ∧
    (evaluate_coverage "PAPER OVERVIEW methodology Key Findings".toList).score =
      1 / 2 := by
  refine ⟨?_, evaluate_coverage_score_eq, ?_, ?_⟩
  · intro summary sec hsec
    simp [evaluate_coverage, List.mem_filter, hsec]
  · rw [evaluate_coverage_score_eq,
      show (evaluate_coverage ("paper overview problem statement methodology " ++
        "key findings limitations & future work key takeaways").toList).found_sections.length
        = 6 from by decide]
    norm_num [round2]
  · rw [evaluate_coverage_score_eq,
      show (evaluate_coverage
        "PAPER OVERVIEW methodology Key Findings".toList).found_sections.length
        = 3 from by decide]
    norm_num [round2]

/-- C4 witness: the found-iff-substring equivalence at a concrete
summary and section. -/
theorem evaluate_coverage_substring_score_witness :
    "Methodology".toList ∈
        (evaluate_coverage "our Methodology section".toList).found_sections ↔
      sectionFound "our Methodology section".toList "Methodology".toList = true :=
  evaluate_coverage_substring_score.1 "our Methodology section".toList
    "Methodology".toList (by decide)

/-- C9: `found_sections` and `missing_sections` are complementary
sublists of the fixed six-element `REQUIRED_SECTIONS` (each required
section lands in exactly one of them, both preserve the fixed order, and
their lengths add up to six), and the score is `len(found) / 6` rounded
to two decimals — in particular a five-of-six summary is reported as
`0.83`, not as the exact `5/6`. -/
theorem evaluate_coverage_partition (summary : List Char) :
    (evaluate_coverage summary).found_sections.Sublist REQUIRED_SECTIONS ∧
    (evaluate_coverage summary).missing_sections.Sublist REQUIRED_SECTIONS ∧
    (∀ sec ∈ REQUIRED_SECTIONS,
      (sec ∈ (evaluate_coverage summary).found_sections ∧
        sec ∉ (evaluate_coverage summary).missing_sections) ∨
      (sec ∉ (evaluate_coverage summary).found_sections ∧
        sec ∈ (evaluate_coverage summary).missing_sections)) ∧
    (evaluate_coverage summary).found_sections.length +
      (evaluate_coverage summary).missing_sections.length = 6 ∧
    (evaluate_coverage summary).score =
      round2 (((evaluate_coverage summary).found_sections.length : ℚ) / 6) ∧
    (evaluate_coverage ("paper overview problem statement methodology " ++
      "key findings limitations & future work").toList).score = 83 / 100 := by
  refine ⟨?_, ?_, ?_, ?_, evaluate_coverage_score_eq summary, ?_⟩
  · simpa [evaluate_coverage] using
      List.filter_sublist (l := REQUIRED_SECTIONS) (p := fun sec => sectionFound summary sec)
  · simpa [evaluate_coverage] using
      List.filter_sublist (l := REQUIRED_SECTIONS) (p := fun sec => !sectionFound summary sec)
  · intro sec hsec
    by_cases h : sectionFound summary sec
    · left
      constructor
      · simp [evaluate_coverage, List.mem_filter, hsec, h]
      · simp [evaluate_coverage, List.mem_filter, hsec, h]
    · right
      constructor
      · simp [evaluate_coverage, List.mem_filter, hsec, h]
      · simp [evaluate_coverage, List.mem_filter, hsec, h]
  · simpa [evaluate_coverage] using
      filter_length_split (fun sec => sectionFound summary sec) REQUIRED_SECTIONS
  · rw [evaluate_coverage_score_eq,
      show (evaluate_coverage ("paper overview problem statement methodology " ++
        "key findings limitations & future work").toList).found_sections.length
        = 5 from by decide]
    norm_num [round2]

/-- C9 witness: the partition property at a concrete summary and
section. -/
theorem evaluate_coverage_partition_witness :
    ("Key Findings".toList ∈
        (evaluate_coverage "the key findings are strong".toList).found_sections ∧
      "Key Findings".toList ∉
        (evaluate_coverage "the key findings are strong".toList).missing_sections) ∨
    ("Key Findings".toList ∉
        (evaluate_coverage "the key findings are strong".toList).found_sections ∧
      "Key Findings".toList ∈
        (evaluate_coverage "the key findings are strong".toList).missing_sections) :=
  (evaluate_coverage_partition "the key findings are strong".toList).2.2.1
    "Key Findings".toList (by decide)

/-- C5, counterexample to the claim as stated: coverage `0.17` (one
header found) and coherence `0.5` (raw score 2.5) with grounding skipped
give `overall_score = round(0.335, 2) = 0.34`, which is not the exact
mean `0.335` — the stored overall score is rounded to two decimals. -/
theorem run_evaluation_overall_rounding_cex :
    run_evaluation_overall (17 / 100) (1 / 2) [] 0 = 17 / 50 ∧
    (17 : ℚ) / 50 ≠ (17 / 100 + 1 / 2) / 2 := by
  constructor
  · simp [run_evaluation_overall, run_evaluation_scores, run_evaluation_mean,
      groundingScoreOf, hasNonWs, List.filterMap]
    norm_num [round2]
  · norm_num

/-- C5 (amended): the stored `overall_score` is the unweighted
arithmetic mean of exactly the metrics that produced a numeric score,
rounded to two decimals: when grounding is skipped (no non-whitespace
source text) the score list is exactly `[coverage, coherence]` — the
skipped metric is excluded, not zero-filled — and the overall score is
`round((coverage + coherence) / 2, 2)`; when source text is present the
list is `[coverage, coherence, grounding]`.  Coverage `0.8` with
coherence `0.6` yields exactly `0.7`. -/
theorem run_evaluation_overall_mean :
    (∀ (cov coh gnd : ℚ) (src : List Char), hasNonWs src = false →
      run_evaluation_scores cov coh (groundingScoreOf src gnd) = [cov, coh] ∧
      run_evaluation_overall cov coh src gnd = round2 ((cov + coh) / 2)) ∧
    (∀ (cov coh gnd : ℚ) (src : List Char), hasNonWs src = true →
      run_evaluation_scores cov coh (groundingScoreOf src gnd) = [cov, coh, gnd]) ∧
    run_evaluation_overall (8 / 10) (6 / 10) [] 0 = 7 / 10 := by
  refine ⟨?_, ?_, ?_⟩
  · intro cov coh gnd src h
    have hg : groundingScoreOf src gnd = none := by simp [groundingScoreOf, h]
    refine ⟨by simp [run_evaluation_scores, hg, List.filterMap], ?_⟩
    simp [run_evaluation_overall, run_evaluation_scores, run_evaluation_mean, hg,
      List.filterMap]
  · intro cov coh gnd src h
    have hg : groundingScoreOf src gnd = some gnd := by simp [groundingScoreOf, h]
    simp [run_evaluation_scores, hg, List.filterMap]
  · simp [run_evaluation_overall, run_evaluation_scores, run_evaluation_mean,
      groundingScoreOf, hasNonWs, List.filterMap]
    norm_num [round2]

/-- C5 witness: with empty source text the score list is the two
available metrics and the overall score is the rounded mean. -/
theorem run_evaluation_overall_mean_witness :
    run_evaluation_scores (1 / 2) (1 / 2) (groundingScoreOf [] 0) = [1 / 2, 1 / 2] ∧
    run_evaluation_overall (1 / 2) (1 / 2) [] 0 = round2 ((1 / 2 + 1 / 2) / 2) :=
  run_evaluation_overall_mean.1 (1 / 2) (1 / 2) 0 [] rfl

/-- C6: when every paper text is empty (so no chunks arise — in
particular for an empty collection of papers), `build_vector_store`
returns the empty-but-valid collection having issued zero
embedding-provider calls, and `retrieve` against that empty collection
returns the empty sequence (for any ranking and any question), never an
error. -/
theorem build_vector_store_empty (embed : List (List Char) → List (List ℚ))
    (paper_texts : List (String × List Char))
    (h : ∀ p ∈ paper_texts, p.2 = ([] : List Char)) :
    build_vector_store embed paper_texts =
      ({ documents := [], embeddings := [], ids := [], metadatas := [] }, 0) ∧
    (∀ (sim : List Char → List Char → ℚ) (question : List Char) (top_k : Nat),
      (retrieve sim (build_vector_store embed paper_texts).1 question top_k).1 = []) := by
  have hchunks : ∀ (l : List (String × List Char)),
      (∀ p ∈ l, p.2 = ([] : List Char)) →
      l.flatMap (fun p => chunksOf p.2) = [] := by
    intro l
    induction l with
    | nil => intro _; rfl
    | cons p ps ih =>
      intro hl
      have hp : p.2 = [] := hl p (List.mem_cons_self p ps)
      have hps := ih (fun q hq => hl q (List.mem_cons_of_mem p hq))
      rw [List.flatMap_cons, hp, hps]
      rfl
  have hbuild : build_vector_store embed paper_texts =
      ({ documents := [], embeddings := [], ids := [], metadatas := [] }, 0) := by
    simp [build_vector_store, hchunks paper_texts h]
  refine ⟨hbuild, ?_⟩
  intro sim question top_k
  rw [hbuild]
  simp [retrieve, chromaQueryDocs, sortBy]

/-- C6 witness: one paper with empty text — no embedding call, empty
collection, empty retrieval result. -/
theorem build_vector_store_empty_witness :
    build_vector_store (fun _ => []) [("paper.pdf", ([] : List Char))] =
      ({ documents := [], embeddings := [], ids := [], metadatas := [] }, 0) ∧
    (retrieve (fun _ _ => 0)
      (build_vector_store (fun _ => []) [("paper.pdf", ([] : List Char))]).1
      "what is the method".toList 5).1 = [] := by
  have h := build_vector_store_empty (fun _ => []) [("paper.pdf", ([] : List Char))]
    (by intro p hp; rw [List.mem_singleton.mp hp])
  exact ⟨h.1, h.2 (fun _ _ => 0) "what is the method".toList 5⟩

/-- C7, counterexample to the claim as stated: a malformed
(non-parseable) judge response makes `evaluate_coherence` fail with
`json.JSONDecodeError`, which is not the spec's `JudgeFormatError` — no
such error type exists in the source. -/
theorem evaluate_coherence_error_type_cex :
    evaluate_coherence none = Except.error PyErr.jsonDecodeError ∧
    PyErr.jsonDecodeError ≠ PyErr.judgeFormatError :=
  ⟨rfl, by decide⟩

/-- C7 (amended): `evaluate_coherence` never yields the spec's
`JudgeFormatError` on any input; instead a malformed response propagates
the underlying Python exception — `json.JSONDecodeError` for an
unparseable body, `KeyError` for a parseable object missing `"score"`
(or `"reasoning"`), `TypeError` for a non-numeric score or a non-object
body — and no score is silently defaulted. -/
theorem evaluate_coherence_errors :
    (∀ parsed, evaluate_coherence parsed ≠ Except.error PyErr.judgeFormatError) ∧
    evaluate_coherence none = Except.error PyErr.jsonDecodeError ∧
    evaluate_coherence (some (Json.obj [])) = Except.error (PyErr.keyError "score") ∧
    evaluate_coherence
        (some (Json.obj [("score", Json.str "high"), ("reasoning", Json.str "ok")])) =
      Except.error PyErr.typeError ∧
    evaluate_coherence (some (Json.arr [])) = Except.error PyErr.typeError := by
  refine ⟨?_, rfl, rfl, rfl, rfl⟩
  intro parsed
  rcases parsed with _ | j
  · simp [evaluate_coherence]
  · rcases j with _ | b | q | s | xs | kvs
    · simp [evaluate_coherence]
    · simp [evaluate_coherence]
    · simp [evaluate_coherence]
    · simp [evaluate_coherence]
    · simp [evaluate_coherence]
    · rcases h1 : jsonLookup kvs "score" with _ | v
      · simp [evaluate_coherence, h1]
      · rcases h2 : jsonNum v with _ | raw
        · simp [evaluate_coherence, h1, h2]
        · rcases h3 : jsonLookup kvs "reasoning" with _ | reasoning
          · simp [evaluate_coherence, h1, h2, h3]
          · simp [evaluate_coherence, h1, h2, h3]

/-- C7 witness: the judge-format error is not produced at the malformed
input. -/
theorem evaluate_coherence_errors_witness :
    evaluate_coherence none ≠ Except.error PyErr.judgeFormatError :=
  evaluate_coherence_errors.1 none

/-- C10: if the judge's grounding response parses to an object whose
`"score"` is numeric but which omits `"supported_claims"`,
`"unsupported_claims"` and `"flagged"`, `evaluate_grounding` does not
fail: it returns the result with the `.get` defaults `0`, `0` and `[]`
for the missing keys. -/
theorem evaluate_grounding_defaults (kvs : List (String × Json)) (q : ℚ)
    (hscore : jsonLookup kvs "score" = some (Json.num q))
    (hsup : jsonLookup kvs "supported_claims" = none)
    (hunsup : jsonLookup kvs "unsupported_claims" = none)
    (hflag : jsonLookup kvs "flagged" = none) :
    evaluate_grounding (some (Json.obj kvs)) =
      Except.ok
        { score := round2 (q / 5), supported_claims := Json.num 0,
          unsupported_claims := Json.num 0, flagged := Json.arr [] } := by
  simp [evaluate_grounding, hscore, hsup, hunsup, hflag, jsonNum]

/-- C10 witness: the object containing only `"score": 4` yields the
defaulted result. -/
theorem evaluate_grounding_defaults_witness :
    evaluate_grounding (some (Json.obj [("score", Json.num 4)])) =
      Except.ok
        { score := round2 (4 / 5), supported_claims := Json.num 0,
          unsupported_claims := Json.num 0, flagged := Json.arr [] } :=
  evaluate_grounding_defaults [("score", Json.num 4)] 4 rfl rfl rfl rfl
